import Mathlib

/-!
Verification of `src/Streamlit/mcc_dashboard.py` (Google Ads multi-country
dashboard).  The Python script is embedded shallowly: the transport layer
(the Google Ads service calls) is modelled as an outcome parameter, the
Streamlit side effects (`st.error`, `st.warning`, `st.success`, `st.stop`)
become explicit message lists and a `stopped` result constructor, and the
Python dict rows become structures whose metric fields are
`Option (Option Int)` (`none` = key absent, `some none` = value `None`,
`some (some v)` = value `v`).
-/

namespace MccDashboard

/-! ### Country registry (source lines 24-39) -/

/-- Registry `COUNTRY_ACCOUNTS` from the source, as an ordered association list
(Python dicts preserve insertion order). -/
def COUNTRY_ACCOUNTS : List (String × String) :=
  [ ("NL", "5756290882"),
    ("BE", "5735473691"),
    ("DE", "1946606314"),
    ("DK", "8921136631"),
    ("ES", "4748902087"),
    ("FI", "8470338623"),
    ("FR (Ravann)", "2846016798"),
    ("FR (Tapis)", "7539242704"),
    ("IT", "8472162607"),
    ("NO", "3581636329"),
    ("PL", "8467590750"),
    ("SE", "8463558543"),
    ("EU", "6542318847"),
    ("UK", "8163355443") ]

/-- A string matches the identifier format `^\d+$`: non-empty, all digits. -/
def isNumericString (s : String) : Bool :=
  s ≠ "" && s.toList.all Char.isDigit

/-! ### Environment / credential loader (source lines 44-60) -/

/-- The process environment: `os.environ.get` returns `None` for an absent
key, which we model as `none`. -/
def Env : Type := String → Option String

/-- Result of running a fragment of the Streamlit script: either a value, or
the script was halted by `st.stop()` after surfacing the given error
messages. -/
inductive StResult (α : Type) where
  | ok (v : α)
  | stopped (errors : List String)
deriving DecidableEq, Repr

def StResult.isStopped {α : Type} : StResult α → Bool
  | .ok _ => false
  | .stopped _ => true

def StResult.bindR {α β : Type} : StResult α → (α → StResult β) → StResult β
  | .stopped es, _ => .stopped es
  | .ok v, f => f v

/-- Function `get_env_var` (source lines 45-50): reads the key; if the value is
missing or empty (Python `not value`), surfaces
`"Missing required environment variable: {key}"` and halts via
`st.stop()`; otherwise returns the value. -/
def get_env_var (env : Env) (key : String) : StResult String :=
  match env key with
  | none => .stopped ["Missing required environment variable: " ++ key]
  | some v =>
      if v = "" then .stopped ["Missing required environment variable: " ++ key]
      else .ok v

/-- The credentials record built by the `GOOGLE_ADS_CONFIG` dict literal
(source lines 53-60). -/
structure GoogleAdsConfig where
  developer_token : String
  client_id : String
  client_secret : String
  refresh_token : String
  login_customer_id : String
  use_proto_plus : Bool
deriving DecidableEq, Repr

/-- The five required environment variables, in the order the dict literal
evaluates them. -/
def REQUIRED_ENV_KEYS : List String :=
  ["DEVELOPER_TOKEN", "CLIENT_ID", "CLIENT_SECRET", "REFRESH_TOKEN",
   "MCC_CUSTOMER_ID"]

/-- Loader `GOOGLE_ADS_CONFIG` (source lines 53-60): the dict literal evaluates its
values in key order, so the first missing variable halts the script. -/
def GOOGLE_ADS_CONFIG (env : Env) : StResult GoogleAdsConfig :=
  (get_env_var env "DEVELOPER_TOKEN").bindR fun dt =>
  (get_env_var env "CLIENT_ID").bindR fun ci =>
  (get_env_var env "CLIENT_SECRET").bindR fun cs =>
  (get_env_var env "REFRESH_TOKEN").bindR fun rt =>
  (get_env_var env "MCC_CUSTOMER_ID").bindR fun mcc =>
  .ok { developer_token := dt, client_id := ci, client_secret := cs,
        refresh_token := rt, login_customer_id := mcc,
        use_proto_plus := true }

/-- The variable is absent from the environment or set to the empty string
(both are falsy under Python `not value`). -/
def envMissing (env : Env) (k : String) : Prop :=
  env k = none ∨ env k = some ""

/-- The variable is present and non-empty. -/
def envGood (env : Env) (k : String) : Prop :=
  ∃ v, env k = some v ∧ v ≠ ""

/-! ### Transport outcomes -/

/-- The outcome of one `ga_service.search(customer_id, query)` call:
either a row sequence, or a raised `GoogleAdsException`, or any other
raised exception. -/
inductive SearchOutcome (ρ : Type) where
  | ok (rows : List ρ)
  | googleAdsError (msg : String)
  | otherError (msg : String)
deriving DecidableEq, Repr

def SearchOutcome.isError {ρ : Type} : SearchOutcome ρ → Bool
  | .ok _ => false
  | _ => true

/-! ### list_accounts_under_mcc (source lines 86-107) -/

/-- One response row of the `customer_client` query. -/
structure AccountRow where
  client_customer : String
  descriptive_name : String
deriving DecidableEq, Repr

/-- One element of the list returned by `list_accounts_under_mcc`. -/
structure Account where
  id : String
  name : String
deriving DecidableEq, Repr

/-- The GAQL string of `list_accounts_under_mcc` (source lines 87-91),
verbatim. -/
def accounts_query : String :=
  "\n        SELECT customer_client.client_customer, customer_client.descriptive_name\n        FROM customer_client\n        WHERE customer_client.level = 1\n    "

/-- Function `list_accounts_under_mcc` (source lines 86-107).  The transport is a
function from `(customer_id, query)` to a `SearchOutcome`; both exception
handlers surface a message and return `[]`.  Returns the account list
paired with the surfaced error messages. -/
def list_accounts_under_mcc
    (search : String → String → SearchOutcome AccountRow)
    (mcc_customer_id : String) : List Account × List String :=
  match search mcc_customer_id accounts_query with
  | .ok rows =>
      (rows.map fun row => { id := row.client_customer,
                             name := row.descriptive_name }, [])
  | .googleAdsError ex => ([], ["Google Ads API error: " ++ ex])
  | .otherError e => ([], ["Unexpected error: " ++ e])

/-! ### get_campaign_performance (source lines 110-139) -/

/-- One response row of the campaign query (proto fields). -/
structure CampaignRow where
  campaign_id : Int
  campaign_name : String
  impressions : Int
  clicks : Int
  cost_micros : Int
deriving DecidableEq, Repr

/-- A Python dict row as consumed by the aggregation and the table
(source lines 126-132, 155-157, 164-172).  Each field is
`Option (Option _)`: `none` = key absent, `some none` = the value `None`,
`some (some v)` = the value `v`. -/
structure PerfRow where
  campaign_id : Option (Option Int)
  campaign_name : Option (Option String)
  impressions : Option (Option Int)
  clicks : Option (Option Int)
  cost_micros : Option (Option Int)
deriving DecidableEq, Repr

/-- The GAQL string of `get_campaign_performance` (source lines 111-120),
verbatim. -/
def campaign_query : String :=
  "\n        SELECT\n            campaign.id,\n            campaign.name,\n            metrics.impressions,\n            metrics.clicks,\n            metrics.cost_micros\n        FROM campaign\n        WHERE campaign.status = 'ENABLED'\n    "

/-- The dict built for one response row (source lines 126-132): every key
present, every value the proto field. -/
def campaignRowToDict (row : CampaignRow) : PerfRow :=
  { campaign_id := some (some row.campaign_id),
    campaign_name := some (some row.campaign_name),
    impressions := some (some row.impressions),
    clicks := some (some row.clicks),
    cost_micros := some (some row.cost_micros) }

/-- Function `get_campaign_performance` (source lines 110-139): on success, one dict
per response row; both exception handlers surface a message and return
`[]`. -/
def get_campaign_performance
    (search : String → String → SearchOutcome CampaignRow)
    (customer_id : String) : List PerfRow × List String :=
  match search customer_id campaign_query with
  | .ok rows => (rows.map campaignRowToDict, [])
  | .googleAdsError ex => ([], ["Google Ads API error: " ++ ex])
  | .otherError e => ([], ["Unexpected error: " ++ e])

/-! ### Aggregation (source lines 155-157) -/

/-- Python `row.get(key, 0) or 0`: an absent key gives the default `0`, a
`None` value is falsy so `or 0` gives `0`, and a numeric value `v` gives
`v` (for `v = 0` the `or` also gives `0`). -/
def getOr0 : Option (Option Int) → Int
  | none => 0
  | some none => 0
  | some (some v) => v

/-- Python `row.get(key, 0)` with no `or 0` (table lines 169-170): an
absent key gives `0`, otherwise the stored value (possibly `None`). -/
def getD0 : Option (Option Int) → Option Int
  | none => some 0
  | some v => v

/-- Total `total_impressions` (source line 155). -/
def total_impressions (rows : List PerfRow) : Int :=
  (rows.map fun row => getOr0 row.impressions).sum

/-- Total `total_clicks` (source line 156). -/
def total_clicks (rows : List PerfRow) : Int :=
  (rows.map fun row => getOr0 row.clicks).sum

/-- Total `total_cost` (source line 157): the micros sum divided by 1 000 000 in
at-least-double precision, modelled exactly in `ℚ`. -/
def total_cost (rows : List PerfRow) : ℚ :=
  ((rows.map fun row => getOr0 row.cost_micros).sum : ℤ) / 1000000

/-- The spec's `summarize`: the three totals of source lines 155-157
bundled into one record. -/
structure Summary where
  impressions : Int
  clicks : Int
  cost : ℚ
deriving DecidableEq, Repr

def summarize (rows : List PerfRow) : Summary :=
  { impressions := total_impressions rows,
    clicks := total_clicks rows,
    cost := total_cost rows }

/-! ### Table (source lines 164-172) -/

/-- One row of `table_data` (source lines 166-172).  `Campaign ID` and
`Campaign Name` use `row.get(key)` with no default, `Impressions` and
`Clicks` use `row.get(key, 0)`, and `Cost (€)` uses
`(row.get(key, 0) or 0) / 1_000_000`. -/
structure TableRow where
  campaignId : Option Int
  campaignName : Option String
  impressions : Option Int
  clicks : Option Int
  cost : ℚ
deriving DecidableEq, Repr

def tableRowOf (row : PerfRow) : TableRow :=
  { campaignId := row.campaign_id.join,
    campaignName := row.campaign_name.join,
    impressions := getD0 row.impressions,
    clicks := getD0 row.clicks,
    cost := (getOr0 row.cost_micros : ℤ) / 1000000 }

def table_data (rows : List PerfRow) : List TableRow :=
  rows.map tableRowOf

/-! ### Connection test (source lines 71-83) and main flow (146-150) -/

/-- A Streamlit message, tagged with the widget that surfaced it. -/
inductive Msg where
  | success (s : String)
  | warning (s : String)
  | error (s : String)
deriving DecidableEq, Repr

/-- The outcome of `customer_service.list_accessible_customers()`: either
the `resource_names` sequence, or a raised exception. -/
inductive ProbeOutcome where
  | ok (resource_names : List String)
  | err (msg : String)
deriving DecidableEq, Repr

/-- Function `test_google_ads_connection` (source lines 71-83): a non-empty
`resource_names` is truthy, giving a success message and `True`; an empty
one gives a warning and `False`; any exception is caught, surfaced via
`st.error`, and gives `False`.  There is no `st.stop()` in the function,
so it always returns. -/
def test_google_ads_connection (probe : ProbeOutcome) : Bool × List Msg :=
  match probe with
  | .ok names =>
      if names ≠ [] then
        (true, [.success "Google Ads API connection successful!"])
      else
        (false, [.warning "Connected, but no accessible customers found."])
  | .err e => (false, [.error ("Google Ads API connection failed: " ++ e)])

/-- The main flow of source lines 146-150: the connection test runs, its
Boolean result is discarded, and the campaign fetch follows
unconditionally. -/
def startup_fetch (probe : ProbeOutcome)
    (search : String → String → SearchOutcome CampaignRow)
    (customer_id : String) : Bool × List PerfRow :=
  let t := test_google_ads_connection probe
  (t.1, (get_campaign_performance search customer_id).1)

/-! ### Memoized client construction (source lines 62-68) -/

/-- The process-wide cache behind `@st.cache_resource`: the memoized
client, if already constructed, and how many times the function body has
run. -/
structure CacheState (Client : Type) where
  cached : Option Client
  constructions : Nat
deriving Repr

/-- The cache at process start: nothing constructed yet. -/
def freshCache (Client : Type) : CacheState Client := ⟨none, 0⟩

/-- Function `get_google_ads_client` (source lines 62-68) under `@st.cache_resource`
(Streamlit's documented semantics: the decorated body runs once per
process and its result is returned for every later call).  `construct`
abstracts `GoogleAdsClient.load_from_dict(GOOGLE_ADS_CONFIG)`; on a cache
hit the body does not run. -/
def get_google_ads_client {Client : Type} (construct : Unit → Client)
    (s : CacheState Client) : Client × CacheState Client :=
  match s.cached with
  | some c => (c, s)
  | none =>
      let c := construct ()
      (c, { cached := some c, constructions := s.constructions + 1 })

/-- Iterated calls: `n` sequential calls to the memoized `get_google_ads_client`. -/
def callClientN {Client : Type} (construct : Unit → Client) :
    Nat → CacheState Client → CacheState Client
  | 0, s => s
  | n + 1, s => callClientN construct n (get_google_ads_client construct s).2

/-! ### Substring utilities and example rows -/

/-- The first list starts with the second's pattern: `listStarts p l`
decides whether `p` is an initial segment of `l`. -/
def listStarts [BEq α] : List α → List α → Bool
  | [], _ => true
  | _ :: _, [] => false
  | a :: as, b :: bs => a == b && listStarts as bs

/-- Predicate `listHasSub p l` decides whether `p` occurs contiguously in `l`. -/
def listHasSub [BEq α] (p : List α) : List α → Bool
  | [] => listStarts p []
  | b :: bs => listStarts p (b :: bs) || listHasSub p bs

/-- Whether `needle` occurs contiguously in `hay`. -/
def strHasSub (needle hay : String) : Bool :=
  listHasSub needle.toList hay.toList

/-- The row of the spec's example:
`{impressions: null, clicks: 5, cost_micros: 2_000_000}` (the other keys
absent). -/
def exampleRow : PerfRow :=
  { campaign_id := none, campaign_name := none,
    impressions := some none, clicks := some (some 5),
    cost_micros := some (some 2000000) }

/-- A concrete campaign response row, for witnesses. -/
def exampleCampaignRow : CampaignRow :=
  { campaign_id := 1, campaign_name := "Brand",
    impressions := 100, clicks := 7, cost_micros := 2500000 }

end MccDashboard

namespace MccDashboard

/-! ### Helper lemmas -/

theorem sum_intCast_q (l : List ℤ) :
    ((l.sum : ℤ) : ℚ) = (l.map fun x : ℤ => (x : ℚ)).sum := by
  induction l with
  | nil => simp
  | cons a t ih => simp [List.sum_cons, ih]

theorem sum_div_q (l : List ℚ) (c : ℚ) :
    l.sum / c = (l.map fun x => x / c).sum := by
  induction l with
  | nil => simp
  | cons a t ih => simp [List.sum_cons, add_div, ih]

theorem get_env_var_missing {env : Env} {k : String} (h : envMissing env k) :
    get_env_var env k
      = .stopped ["Missing required environment variable: " ++ k] := by
  rcases h with h | h <;> simp [get_env_var, h]

theorem get_env_var_good {env : Env} {k v : String}
    (h : env k = some v) (hv : v ≠ "") : get_env_var env k = .ok v := by
  simp [get_env_var, h, hv]

theorem get_env_var_isStopped {env : Env} {k : String}
    (h : envMissing env k) : (get_env_var env k).isStopped = true := by
  rw [get_env_var_missing h]; rfl

theorem bindR_stopped_head {α β : Type} (r : StResult α)
    (f : α → StResult β) (h : r.isStopped = true) :
    (r.bindR f).isStopped = true := by
  cases r <;> simp_all [StResult.bindR, StResult.isStopped]

theorem bindR_isStopped_cases {α β : Type} {r : StResult α}
    {f : α → StResult β} (h : ∀ v, r = .ok v → ((f v).isStopped = true)) :
    (r.bindR f).isStopped = true := by
  cases r with
  | ok v => exact h v rfl
  | stopped es => rfl

theorem callClientN_cached {Client : Type} (construct : Unit → Client)
    (c : Client) (k : Nat) :
    ∀ n, callClientN construct n ⟨some c, k⟩ = ⟨some c, k⟩ := by
  intro n
  induction n with
  | zero => rfl
  | succ m ih => simpa [callClientN, get_google_ads_client] using ih

/-- Helper: `total_cost` rewritten as the sum of the per-row quantity
`cost_micros / 1_000_000` (exact in `ℚ`). -/
theorem total_cost_eq_rowwise (rows : List PerfRow) :
    total_cost rows
      = (rows.map fun row => (getOr0 row.cost_micros : ℚ) / 1000000).sum := by
  unfold total_cost
  rw [sum_intCast_q, sum_div_q, List.map_map, List.map_map]
  rfl

/-! ### C5 -/

/-- C5: the aggregator's total cost equals the sum over rows of
`cost_micros` divided by 1 000 000; in the exact rational model the two
agree on the nose, hence within the tolerance `1e-6`. -/
theorem total_cost_correct (rows : List PerfRow) :
    total_cost rows
      = ((rows.map fun row => (getOr0 row.cost_micros : ℚ)).sum) / 1000000 ∧
    total_cost rows
      = (rows.map fun row => (getOr0 row.cost_micros : ℚ) / 1000000).sum ∧
    |total_cost rows
       - ((rows.map fun row => (getOr0 row.cost_micros : ℚ)).sum) / 1000000|
      ≤ 1 / 1000000 := by
  have h1 : total_cost rows
      = ((rows.map fun row => (getOr0 row.cost_micros : ℚ)).sum) / 1000000 := by
    unfold total_cost
    rw [sum_intCast_q, List.map_map]
    rfl
  refine ⟨h1, total_cost_eq_rowwise rows, ?_⟩
  rw [h1, sub_self, abs_zero]
  norm_num

/-! ### C6 -/

/-- C6: a null or absent metric field is coerced to zero before summing —
replacing such a field by an explicit `0` leaves the summary unchanged —
and in particular
`summarize [{impressions: null, clicks: 5, cost_micros: 2_000_000}]`
is `{impressions := 0, clicks := 5, cost := 2}`. -/
theorem summarize_coerces_null_to_zero (rest : List PerfRow) (row : PerfRow) :
    ((row.impressions = none ∨ row.impressions = some none) →
      summarize (row :: rest)
        = summarize ({ row with impressions := some (some 0) } :: rest)) ∧
    ((row.clicks = none ∨ row.clicks = some none) →
      summarize (row :: rest)
        = summarize ({ row with clicks := some (some 0) } :: rest)) ∧
    ((row.cost_micros = none ∨ row.cost_micros = some none) →
      summarize (row :: rest)
        = summarize ({ row with cost_micros := some (some 0) } :: rest)) ∧
    summarize [exampleRow] = { impressions := 0, clicks := 5, cost := 2 } := by
  refine ⟨?_, ?_, ?_, ?_⟩
  · rintro (h | h) <;>
      simp [summarize, total_impressions, total_clicks, total_cost, getOr0, h]
  · rintro (h | h) <;>
      simp [summarize, total_impressions, total_clicks, total_cost, getOr0, h]
  · rintro (h | h) <;>
      simp [summarize, total_impressions, total_clicks, total_cost, getOr0, h]
  · simp [summarize, total_impressions, total_clicks, total_cost, exampleRow,
      getOr0]
    norm_num

/-- Witness for C6 at a concrete input: the example row has a null
`impressions` field, and replacing it by `0` leaves the summary
unchanged. -/
theorem summarize_coerces_null_to_zero_witness :
    summarize (exampleRow :: [])
      = summarize ({ exampleRow with impressions := some (some 0) } :: []) :=
  (summarize_coerces_null_to_zero [] exampleRow).1 (Or.inr rfl)

/-! ### C10 -/

/-- C10: for every non-empty row list, the summary's total cost equals the
sum of the per-row `Cost (€)` values of the table: both divide
`cost_micros` by 1 000 000 with the same null-or-absent-to-zero
coercion. -/
theorem summary_cost_eq_table_cost_sum (rows : List PerfRow)
    (_h : rows ≠ []) :
    (summarize rows).cost = ((table_data rows).map TableRow.cost).sum := by
  show total_cost rows = _
  rw [total_cost_eq_rowwise, table_data, List.map_map]
  rfl

/-- Witness for C10 at a concrete non-empty row list. -/
theorem summary_cost_eq_table_cost_sum_witness :
    (summarize [exampleRow]).cost
      = ((table_data [exampleRow]).map TableRow.cost).sum :=
  summary_cost_eq_table_cost_sum [exampleRow] (List.cons_ne_nil _ _)

/-! ### C7 -/

/-- C7: applying the aggregator to the empty row list yields all-zero
totals: `summarize [] = {impressions := 0, clicks := 0, cost := 0}`. -/
theorem summarize_nil :
    summarize ([] : List PerfRow) =
      { impressions := 0, clicks := 0, cost := 0 } := by
  simp [summarize, total_impressions, total_clicks, total_cost]

/-! ### C9 -/

/-- C9: in the static account registry every pair has a non-empty label,
labels are unique, and every account id is a numeric string matching
`^\d+$`. -/
theorem country_accounts_invariant :
    (COUNTRY_ACCOUNTS.all fun p => p.1 ≠ "" && isNumericString p.2) = true ∧
    (COUNTRY_ACCOUNTS.map Prod.fst).Nodup := by
  constructor
  · decide
  · decide

/-! ### C1 -/

/-- C1: both read operations are total over every transport outcome — on
success they return the mapped rows, and on either exception class they
surface the exception's message and return the empty list; the result is
always a list (never null), for any account id and any underlying
behaviour. -/
theorem reads_catch_all_exceptions
    (searchA : String → String → SearchOutcome AccountRow)
    (searchC : String → String → SearchOutcome CampaignRow)
    (accountId : String) :
    (∀ rows, searchA accountId accounts_query = .ok rows →
      list_accounts_under_mcc searchA accountId
        = (rows.map fun row =>
            { id := row.client_customer, name := row.descriptive_name },
           [])) ∧
    (∀ ex, searchA accountId accounts_query = .googleAdsError ex →
      list_accounts_under_mcc searchA accountId
        = ([], ["Google Ads API error: " ++ ex])) ∧
    (∀ e, searchA accountId accounts_query = .otherError e →
      list_accounts_under_mcc searchA accountId
        = ([], ["Unexpected error: " ++ e])) ∧
    (∀ rows, searchC accountId campaign_query = .ok rows →
      get_campaign_performance searchC accountId
        = (rows.map campaignRowToDict, [])) ∧
    (∀ ex, searchC accountId campaign_query = .googleAdsError ex →
      get_campaign_performance searchC accountId
        = ([], ["Google Ads API error: " ++ ex])) ∧
    (∀ e, searchC accountId campaign_query = .otherError e →
      get_campaign_performance searchC accountId
        = ([], ["Unexpected error: " ++ e])) := by
  refine ⟨?_, ?_, ?_, ?_, ?_, ?_⟩ <;> intro x h <;>
    simp [list_accounts_under_mcc, get_campaign_performance, h]

/-- Witness for C1 at a concrete failing transport. -/
theorem reads_catch_all_exceptions_witness :
    list_accounts_under_mcc
        (fun _ _ => SearchOutcome.googleAdsError "quota exceeded") "5756290882"
      = ([], ["Google Ads API error: quota exceeded"]) :=
  (reads_catch_all_exceptions
      (fun _ _ => SearchOutcome.googleAdsError "quota exceeded")
      (fun _ _ => SearchOutcome.ok []) "5756290882").2.1 "quota exceeded" rfl

/-! ### C2 -/

/-- C2: per required variable — a missing or empty variable makes the
loader halt; the halt message names the first missing variable in
evaluation order; when all five are present and non-empty the loader
returns the record populated with exactly the environment's values (and
the literal `use_proto_plus := true`). -/
theorem google_ads_config_spec (env : Env) :
    (∀ k, k ∈ REQUIRED_ENV_KEYS → envMissing env k →
      (GOOGLE_ADS_CONFIG env).isStopped = true) ∧
    (envMissing env "DEVELOPER_TOKEN" →
      GOOGLE_ADS_CONFIG env
        = .stopped ["Missing required environment variable: DEVELOPER_TOKEN"]) ∧
    (envGood env "DEVELOPER_TOKEN" → envMissing env "CLIENT_ID" →
      GOOGLE_ADS_CONFIG env
        = .stopped ["Missing required environment variable: CLIENT_ID"]) ∧
    (envGood env "DEVELOPER_TOKEN" → envGood env "CLIENT_ID" →
      envMissing env "CLIENT_SECRET" →
      GOOGLE_ADS_CONFIG env
        = .stopped ["Missing required environment variable: CLIENT_SECRET"]) ∧
    (envGood env "DEVELOPER_TOKEN" → envGood env "CLIENT_ID" →
      envGood env "CLIENT_SECRET" → envMissing env "REFRESH_TOKEN" →
      GOOGLE_ADS_CONFIG env
        = .stopped ["Missing required environment variable: REFRESH_TOKEN"]) ∧
    (envGood env "DEVELOPER_TOKEN" → envGood env "CLIENT_ID" →
      envGood env "CLIENT_SECRET" → envGood env "REFRESH_TOKEN" →
      envMissing env "MCC_CUSTOMER_ID" →
      GOOGLE_ADS_CONFIG env
        = .stopped ["Missing required environment variable: MCC_CUSTOMER_ID"]) ∧
    (∀ dt ci cs rt mcc,
      env "DEVELOPER_TOKEN" = some dt → dt ≠ "" →
      env "CLIENT_ID" = some ci → ci ≠ "" →
      env "CLIENT_SECRET" = some cs → cs ≠ "" →
      env "REFRESH_TOKEN" = some rt → rt ≠ "" →
      env "MCC_CUSTOMER_ID" = some mcc → mcc ≠ "" →
      GOOGLE_ADS_CONFIG env
        = .ok { developer_token := dt, client_id := ci, client_secret := cs,
                refresh_token := rt, login_customer_id := mcc,
                use_proto_plus := true }) := by
  refine ⟨?_, ?_, ?_, ?_, ?_, ?_, ?_⟩
  · intro k hk hm
    unfold GOOGLE_ADS_CONFIG
    fin_cases hk
    · exact bindR_stopped_head _ _ (get_env_var_isStopped hm)
    · apply bindR_isStopped_cases; intro v _
      exact bindR_stopped_head _ _ (get_env_var_isStopped hm)
    · apply bindR_isStopped_cases; intro v _
      apply bindR_isStopped_cases; intro v _
      exact bindR_stopped_head _ _ (get_env_var_isStopped hm)
    · apply bindR_isStopped_cases; intro v _
      apply bindR_isStopped_cases; intro v _
      apply bindR_isStopped_cases; intro v _
      exact bindR_stopped_head _ _ (get_env_var_isStopped hm)
    · apply bindR_isStopped_cases; intro v _
      apply bindR_isStopped_cases; intro v _
      apply bindR_isStopped_cases; intro v _
      apply bindR_isStopped_cases; intro v _
      exact bindR_stopped_head _ _ (get_env_var_isStopped hm)
  · intro hm
    simp [GOOGLE_ADS_CONFIG, get_env_var_missing hm, StResult.bindR]
  · rintro ⟨v1, h1, n1⟩ hm
    simp [GOOGLE_ADS_CONFIG, get_env_var_good h1 n1,
      get_env_var_missing hm, StResult.bindR]
  · rintro ⟨v1, h1, n1⟩ ⟨v2, h2, n2⟩ hm
    simp [GOOGLE_ADS_CONFIG, get_env_var_good h1 n1, get_env_var_good h2 n2,
      get_env_var_missing hm, StResult.bindR]
  · rintro ⟨v1, h1, n1⟩ ⟨v2, h2, n2⟩ ⟨v3, h3, n3⟩ hm
    simp [GOOGLE_ADS_CONFIG, get_env_var_good h1 n1, get_env_var_good h2 n2,
      get_env_var_good h3 n3, get_env_var_missing hm, StResult.bindR]
  · rintro ⟨v1, h1, n1⟩ ⟨v2, h2, n2⟩ ⟨v3, h3, n3⟩ ⟨v4, h4, n4⟩ hm
    simp [GOOGLE_ADS_CONFIG, get_env_var_good h1 n1, get_env_var_good h2 n2,
      get_env_var_good h3 n3, get_env_var_good h4 n4,
      get_env_var_missing hm, StResult.bindR]
  · intro dt ci cs rt mcc h1 n1 h2 n2 h3 n3 h4 n4 h5 n5
    simp [GOOGLE_ADS_CONFIG, get_env_var_good h1 n1, get_env_var_good h2 n2,
      get_env_var_good h3 n3, get_env_var_good h4 n4, get_env_var_good h5 n5,
      StResult.bindR]

/-- Witness for C2: at an environment whose `CLIENT_ID` is empty (the rest
set), the loader halts naming `CLIENT_ID`. -/
theorem google_ads_config_spec_witness :
    GOOGLE_ADS_CONFIG
        (fun k => if k = "CLIENT_ID" then some "" else some "x")
      = .stopped ["Missing required environment variable: CLIENT_ID"] :=
  (google_ads_config_spec
      (fun k => if k = "CLIENT_ID" then some "" else some "x")).2.2.1
    ⟨"x", by decide, by decide⟩ (Or.inr (by decide))

/-! ### C3 -/

/-- C3: the connectivity self-test returns `True` exactly on a non-empty
probe result; an empty result surfaces a warning and returns `False`; an
exception is caught, surfaced, and returns `False` (the function contains
no halt); and the fetched rows of the main flow do not depend on the
probe's outcome. -/
theorem test_connection_spec :
    (∀ n ns, test_google_ads_connection (.ok (n :: ns))
      = (true, [.success "Google Ads API connection successful!"])) ∧
    (test_google_ads_connection (.ok [])
      = (false, [.warning "Connected, but no accessible customers found."])) ∧
    (∀ e, test_google_ads_connection (.err e)
      = (false, [.error ("Google Ads API connection failed: " ++ e)])) ∧
    (∀ probe probe' search customer_id,
      (startup_fetch probe search customer_id).2
        = (startup_fetch probe' search customer_id).2) := by
  refine ⟨?_, ?_, ?_, ?_⟩
  · intro n ns; simp [test_google_ads_connection]
  · simp [test_google_ads_connection]
  · intro e; simp [test_google_ads_connection]
  · intro probe probe' search customer_id
    simp [startup_fetch]

/-! ### C4 -/

/-- C4: client construction is memoized and idempotent — a second call
returns the same handle and leaves the cache unchanged, and starting from
the fresh per-process cache any number of sequential calls runs the
construction at most once. -/
theorem get_google_ads_client_memoized {Client : Type}
    (construct : Unit → Client) (s : CacheState Client) :
    ((get_google_ads_client construct
        (get_google_ads_client construct s).2).1
      = (get_google_ads_client construct s).1) ∧
    ((get_google_ads_client construct
        (get_google_ads_client construct s).2).2
      = (get_google_ads_client construct s).2) ∧
    (∀ n, (callClientN construct n (freshCache Client)).constructions ≤ 1) := by
  refine ⟨?_, ?_, ?_⟩
  · rcases s with ⟨c, k⟩; cases c <;> simp [get_google_ads_client]
  · rcases s with ⟨c, k⟩; cases c <;> simp [get_google_ads_client]
  · intro n
    cases n with
    | zero => simp [callClientN, freshCache]
    | succ m =>
        have h : callClientN construct m
            ⟨some (construct ()), 1⟩ = ⟨some (construct ()), 1⟩ :=
          callClientN_cached construct (construct ()) 1 m
        simp [callClientN, freshCache, get_google_ads_client, h]

/-! ### C8 -/

/-- C8: the campaign query selects exactly the five projected fields and is
restricted to `campaign.status = 'ENABLED'`, and on success
`get_campaign_performance` returns one record per response row, each built
by `campaignRowToDict` (whose fields are exactly campaign id, campaign
name, impressions, clicks and cost_micros). -/
theorem campaign_query_shape :
    strHasSub "WHERE campaign.status = 'ENABLED'" campaign_query = true ∧
    strHasSub "campaign.id" campaign_query = true ∧
    strHasSub "campaign.name" campaign_query = true ∧
    strHasSub "metrics.impressions" campaign_query = true ∧
    strHasSub "metrics.clicks" campaign_query = true ∧
    strHasSub "metrics.cost_micros" campaign_query = true ∧
    (∀ search customer_id rows,
      search customer_id campaign_query = SearchOutcome.ok rows →
      get_campaign_performance search customer_id
        = (rows.map campaignRowToDict, [])) := by
  refine ⟨?_, ?_, ?_, ?_, ?_, ?_, ?_⟩
  · decide
  · decide
  · decide
  · decide
  · decide
  · decide
  · intro search customer_id rows h
    simp [get_campaign_performance, h]

/-- Witness for C8 at a concrete successful transport. -/
theorem campaign_query_shape_witness :
    get_campaign_performance
        (fun _ _ => SearchOutcome.ok [exampleCampaignRow]) "5756290882"
      = ([exampleCampaignRow].map campaignRowToDict, []) :=
  campaign_query_shape.2.2.2.2.2.2
    (fun _ _ => SearchOutcome.ok [exampleCampaignRow]) "5756290882"
    [exampleCampaignRow] rfl

end MccDashboard
